import Mathlib

/-!
Verification development for the OpenICC camera calibrator.

The definitions below are a shallow embedding of
`core/camera_calibrator.cc` (`OpenICC::core::CameraCalibrator`) and
`io/read_camera_calibration.cc` (`OpenICC::io::read_camera_calibration`).
Machine doubles are embedded as exact rationals; the external Ceres/Theia
bundle-adjustment solver and the RANSAC pose estimators are kept abstract
(they enter as function parameters), while the driver logic — staging,
gating, pruning, deduplication, parameter bookkeeping — is translated
faithfully from the source.
-/

namespace OpenICC

/-! ## Basic geometry -/

abbrev ViewId := Nat
abbrev TrackId := Nat

/-- A 3-vector of exact rationals (embedding `Eigen::Vector3d`). -/
structure Vec3 where
  x : ℚ
  y : ℚ
  z : ℚ
deriving DecidableEq, Repr

/-- A homogeneous 4-vector (embedding `Eigen::Vector4d`, the payload of a
Theia track). -/
structure Vec4 where
  x : ℚ
  y : ℚ
  z : ℚ
  w : ℚ
deriving DecidableEq, Repr

/-- Rows of a rotation matrix (embedding `Eigen::Matrix3d`; the calibrator
never computes with the entries, it only stores them). -/
abbrev Mat3 := Vec3 × Vec3 × Vec3

def Vec3.sub (p q : Vec3) : Vec3 := ⟨p.x - q.x, p.y - q.y, p.z - q.z⟩

/-- Squared Euclidean norm. -/
def Vec3.normSq (v : Vec3) : ℚ := v.x * v.x + v.y * v.y + v.z * v.z

/-- Embedding of the C++ comparison `v.norm() < c` over exact rationals:
for any real `c`, `‖v‖ < c` holds iff `0 ≤ c` and `‖v‖² < c²`, which avoids
the (irrational) square root. -/
def Vec3.normLt (v : Vec3) (c : ℚ) : Bool :=
  decide (0 ≤ c) && decide (Vec3.normSq v < c * c)

/-- Embedding of `Eigen::Vector4d::hnormalized`. Rational division by zero
yields zero, which is only exercised on degenerate homogeneous points the
program never builds. -/
def Vec4.hnormalized (v : Vec4) : Vec3 := ⟨v.x / v.w, v.y / v.w, v.z / v.w⟩

/-! ## Camera parameter layout

Each Theia camera model stores its intrinsics in one flat `double` array;
the `InternalParametersIndex` constants below mirror the model headers
included by the source (`pinhole_camera_model.h` and friends).  The
aspect-ratio index is spelled `ASPECT_RATIO_` because of a lexical
restriction of this development, not a difference from the source. -/

namespace PinholeCameraModel
def FOCAL_LENGTH : Nat := 0
def ASPECT_RATIO_ : Nat := 1
def SKEW : Nat := 2
def PRINCIPAL_POINT_X : Nat := 3
def PRINCIPAL_POINT_Y : Nat := 4
def RADIAL_DISTORTION_1 : Nat := 5
def RADIAL_DISTORTION_2 : Nat := 6
def kNumParameters : Nat := 7
end PinholeCameraModel

namespace PinholeRadialTangentialCameraModel
def FOCAL_LENGTH : Nat := 0
def ASPECT_RATIO_ : Nat := 1
def SKEW : Nat := 2
def PRINCIPAL_POINT_X : Nat := 3
def PRINCIPAL_POINT_Y : Nat := 4
def RADIAL_DISTORTION_1 : Nat := 5
def RADIAL_DISTORTION_2 : Nat := 6
def RADIAL_DISTORTION_3 : Nat := 7
def TANGENTIAL_DISTORTION_1 : Nat := 8
def TANGENTIAL_DISTORTION_2 : Nat := 9
def kNumParameters : Nat := 10
end PinholeRadialTangentialCameraModel

namespace DivisionUndistortionCameraModel
def FOCAL_LENGTH : Nat := 0
def ASPECT_RATIO_ : Nat := 1
def PRINCIPAL_POINT_X : Nat := 2
def PRINCIPAL_POINT_Y : Nat := 3
def RADIAL_DISTORTION_1 : Nat := 4
def kNumParameters : Nat := 5
end DivisionUndistortionCameraModel

namespace DoubleSphereCameraModel
def FOCAL_LENGTH : Nat := 0
def ASPECT_RATIO_ : Nat := 1
def SKEW : Nat := 2
def PRINCIPAL_POINT_X : Nat := 3
def PRINCIPAL_POINT_Y : Nat := 4
def XI : Nat := 5
def ALPHA : Nat := 6
def kNumParameters : Nat := 7
end DoubleSphereCameraModel

namespace ExtendedUnifiedCameraModel
def FOCAL_LENGTH : Nat := 0
def ASPECT_RATIO_ : Nat := 1
def SKEW : Nat := 2
def PRINCIPAL_POINT_X : Nat := 3
def PRINCIPAL_POINT_Y : Nat := 4
def ALPHA : Nat := 5
def BETA : Nat := 6
def kNumParameters : Nat := 7
end ExtendedUnifiedCameraModel

namespace FisheyeCameraModel
def FOCAL_LENGTH : Nat := 0
def ASPECT_RATIO_ : Nat := 1
def SKEW : Nat := 2
def PRINCIPAL_POINT_X : Nat := 3
def PRINCIPAL_POINT_Y : Nat := 4
def RADIAL_DISTORTION_1 : Nat := 5
def RADIAL_DISTORTION_2 : Nat := 6
def RADIAL_DISTORTION_3 : Nat := 7
def RADIAL_DISTORTION_4 : Nat := 8
def kNumParameters : Nat := 9
end FisheyeCameraModel

/-- Number of intrinsic parameters of each camera-model kind (dispatch on
the model-type string, the representation the source uses throughout). -/
def numParameters (model : String) : Nat :=
  if model == "PINHOLE" then PinholeCameraModel.kNumParameters
  else if model == "PINHOLE_RADIAL_TANGENTIAL" then
    PinholeRadialTangentialCameraModel.kNumParameters
  else if model == "DIVISION_UNDISTORTION" then
    DivisionUndistortionCameraModel.kNumParameters
  else if model == "DOUBLE_SPHERE" then DoubleSphereCameraModel.kNumParameters
  else if model == "EXTENDED_UNIFIED" then
    ExtendedUnifiedCameraModel.kNumParameters
  else if model == "FISHEYE" then FisheyeCameraModel.kNumParameters
  else 0

/-- Index of the principal-point x coordinate for each model (the division
model has no skew slot, so its principal point sits two slots earlier). -/
def principalPointXIndex (model : String) : Nat :=
  if model == "DIVISION_UNDISTORTION" then
    DivisionUndistortionCameraModel.PRINCIPAL_POINT_X
  else PinholeCameraModel.PRINCIPAL_POINT_X

/-- Default intrinsics vector created by Theia for each model kind: focal
length 1, aspect ratio 1, every other slot (skew, principal point,
distortion) 0. -/
def defaultIntrinsics (model : String) : List ℚ :=
  (List.range (numParameters model)).map fun i =>
    if i == 0 then 1 else if i == 1 then 1 else 0

/-- Embedding of `theia::Camera`: the model-type tag, the image size and the
flat intrinsics array. -/
structure Camera where
  modelType : String
  imageWidth : Nat
  imageHeight : Nat
  intrinsics : List ℚ
deriving DecidableEq, Repr

/-- A default-constructed `theia::Camera` (pinhole model, default
parameters). -/
def defaultCamera : Camera :=
  { modelType := "PINHOLE"
    imageWidth := 0
    imageHeight := 0
    intrinsics := defaultIntrinsics "PINHOLE" }

namespace Camera

/-- Read one slot of the intrinsics array (`cam.intrinsics()[i]`). -/
def intr (c : Camera) (i : Nat) : ℚ := c.intrinsics.getD i 0

/-- Write one slot of the intrinsics array
(`CameraIntrinsics()->SetParameter(i, v)`). -/
def SetParameter (c : Camera) (i : Nat) (v : ℚ) : Camera :=
  { c with intrinsics := c.intrinsics.set i v }

def FocalLength (c : Camera) : ℚ := c.intr 0

def SetFocalLength (c : Camera) (f : ℚ) : Camera := c.SetParameter 0 f

def PrincipalPointX (c : Camera) : ℚ := c.intr (principalPointXIndex c.modelType)

def PrincipalPointY (c : Camera) : ℚ :=
  c.intr (principalPointXIndex c.modelType + 1)

def SetPrincipalPoint (c : Camera) (px py : ℚ) : Camera :=
  (c.SetParameter (principalPointXIndex c.modelType) px).SetParameter
    (principalPointXIndex c.modelType + 1) py

def SetImageSize (c : Camera) (w h : Nat) : Camera :=
  { c with imageWidth := w, imageHeight := h }

/-- Embedding of `theia::Camera::SetCameraIntrinsicsModelType`: switching to
a different model re-creates the intrinsics with the new model's defaults,
carrying over the shared focal length and principal point; setting the same
type is a no-op. -/
def SetCameraIntrinsicsModelType (c : Camera) (model : String) : Camera :=
  if c.modelType == model then c
  else
    let fresh : Camera :=
      { c with modelType := model, intrinsics := defaultIntrinsics model }
    (fresh.SetFocalLength c.FocalLength).SetPrincipalPoint c.PrincipalPointX
      c.PrincipalPointY

end Camera

/-! ## Calibration dataset -/

/-- One observed frame (`theia::View` plus its camera): pose, timestamp,
estimated flag, camera and the 2D observations keyed by track id. -/
structure View where
  timestamp : ℚ
  estimated : Bool
  rotation : Mat3
  position : Vec3
  camera : Camera
  obs : List (TrackId × ℚ × ℚ)
deriving DecidableEq, Repr

/-- Embedding of `theia::Reconstruction` as used by the calibrator: views in
insertion order with their ids, the next fresh view id, and the target
points (tracks). -/
structure Dataset where
  views : List (ViewId × View)
  nextViewId : ViewId
  tracks : List (TrackId × Vec4)
deriving DecidableEq, Repr

namespace Dataset

def NumViews (ds : Dataset) : Nat := ds.views.length

def ViewIds (ds : Dataset) : List ViewId := ds.views.map Prod.fst

def TrackIds (ds : Dataset) : List TrackId := ds.tracks.map Prod.fst

/-- Look a view up by id (`Reconstruction::View`, which returns null for an
unknown id). -/
def View? (ds : Dataset) (id : ViewId) : Option View := ds.views.lookup id

/-- Look a track's homogeneous point up by id (`Track::Point`). -/
def Track? (ds : Dataset) (id : TrackId) : Option Vec4 := ds.tracks.lookup id

/-- Embedding of `theia::Reconstruction::RemoveView`. -/
def RemoveView (ds : Dataset) (id : ViewId) : Dataset :=
  { ds with views := ds.views.filter fun p => p.1 ≠ id }

/-- Embedding of `theia::Reconstruction::AddObservation`: the view and the
track must exist and the view must not already observe the track; on
success the pixel observation is recorded on the view. -/
def AddObservation (ds : Dataset) (view_id : ViewId) (object_point_id : TrackId)
    (corner : ℚ × ℚ) : Bool × Dataset :=
  match ds.View? view_id, ds.Track? object_point_id with
  | some v, some _ =>
    if (v.obs.lookup object_point_id).isSome then (false, ds)
    else
      (true,
        { ds with
          views := ds.views.map fun p =>
            if p.1 == view_id then
              (p.1, { p.2 with obs := p.2.obs ++ [(object_point_id, corner)] })
            else p })
  | _, _ => (false, ds)

end Dataset

/-! ## Calibrator configuration and the external solvers -/

/-- RANSAC configuration (`theia::RansacParameters`, the fields the source
touches). -/
structure RansacParameters where
  failure_probability : ℚ := 1/100
  use_mle : Bool := false
  max_iterations : Nat := 10000
  min_iterations : Nat := 0
  error_thresh : ℚ := 0
deriving DecidableEq, Repr

/-- Configuration state of `CameraCalibrator` (the constructor arguments and
the member thresholds `min_num_view_` and `grid_size_`, whose defaults live
in the class header, outside these sources). -/
structure CameraCalibrator where
  camera_model_ : String
  optimize_board_pts_ : Bool
  min_num_view_ : Nat
  grid_size_ : ℚ
deriving DecidableEq, Repr

/-- RANSAC parameters as set by the `CameraCalibrator` constructor. -/
def constructorRansacParams : RansacParameters :=
  { failure_probability := 1/1000
    use_mle := true
    max_iterations := 1000
    min_iterations := 5
    error_thresh := 3 }

/-- Intrinsics-optimization flag set (`theia::OptimizeIntrinsicsType` bit
flags as a record of booleans; `aspectRatioFlag` stands for the source's
ASPECT_RATIO bit, renamed for a lexical restriction of this development). -/
structure OptimizeIntrinsicsType where
  focalLength : Bool := false
  aspectRatioFlag : Bool := false
  principalPoints : Bool := false
  radialDistortion : Bool := false
  tangentialDistortion : Bool := false
deriving DecidableEq, Repr

/-- Embedding of `theia::BundleAdjustmentOptions` (the fields the source
sets). -/
structure BundleAdjustmentOptions where
  verbose : Bool := false
  loss_function_type : String := "TRIVIAL"
  robust_loss_width : ℚ := 1
  num_threads : Nat := 1
  constant_camera_orientation : Bool := false
  constant_camera_position : Bool := false
  intrinsics_to_optimize : OptimizeIntrinsicsType := {}
  use_homogeneous_point_parametrization : Bool := false
deriving DecidableEq, Repr

/-- The external joint nonlinear refinement, abstracted: given the options,
the whole current dataset, a view id and the view, it returns the adjusted
view.  `theia::BundleAdjustViews` adjusts exactly the listed views and never
adds or removes any. -/
abbrev AdjustViewsFn :=
  BundleAdjustmentOptions → Dataset → ViewId → View → View

/-- The external track refinement (`theia::BundleAdjustTracks`), abstracted
the same way: it adjusts track points and never touches views. -/
abbrev AdjustTracksFn := BundleAdjustmentOptions → Dataset → TrackId → Vec4 → Vec4

/-- Embedding of `theia::BundleAdjustViews`: every listed view is replaced
by its adjusted version; ids, order, count and tracks are untouched. -/
def BundleAdjustViews (adj : AdjustViewsFn) (ba_options : BundleAdjustmentOptions)
    (ids : List ViewId) (ds : Dataset) : Dataset :=
  { ds with
    views := ds.views.map fun p =>
      if p.1 ∈ ids then (p.1, adj ba_options ds p.1 p.2) else p }

/-- Embedding of `theia::BundleAdjustTracks`: every listed track point is
replaced by its adjusted version; views are untouched. -/
def BundleAdjustTracks (adjT : AdjustTracksFn) (ba_options : BundleAdjustmentOptions)
    (ids : List TrackId) (ds : Dataset) : Dataset :=
  { ds with
    tracks := ds.tracks.map fun p =>
      if p.1 ∈ ids then (p.1, adjT ba_options ds p.1 p.2) else p }

/-- Modelled from the spec: `utils::GetReprojErrorOfView` is not among these
sources.  Per §4.5 the per-view RMS reprojection error is the mean, over
that view's own observations, of the pixel distance between the observed and
the re-projected target points under the view's current parameters — so it
is a function of the dataset's target points and of the view alone,
independent of which other views are present.  It stays abstract here. -/
abbrev ReprojErrorFn := List (TrackId × Vec4) → View → ℚ

namespace CameraCalibrator

/-- Embedding of `CameraCalibrator::RemoveViewsReprojError`: collect the ids
of all views whose RMS reprojection error exceeds the threshold, then remove
them (the source keys the condemned set by view id in a `std::map`; the
collection order is immaterial because each removal filters by id). -/
def RemoveViewsReprojError (err : ReprojErrorFn) (max_reproj_error : ℚ)
    (ds : Dataset) : Dataset :=
  let ids_to_remove :=
    (ds.views.filter fun p => max_reproj_error < err ds.tracks p.2).map Prod.fst
  ids_to_remove.foldl Dataset.RemoveView ds

/-- The bundle-adjustment options shared by every stage of
`RunCalibration`: verbose, Huber loss of width 1.345, thread count from
`std::thread::hardware_concurrency()` (a parameter here). -/
def baseBaOptions (nthreads : Nat) : BundleAdjustmentOptions :=
  { verbose := true
    loss_function_type := "HUBER"
    robust_loss_width := 1345/1000
    num_threads := nthreads }

/-- Stage-1 options: free orientation, position and focal length, add radial
distortion exactly when the model is not PINHOLE, keep the principal point
fixed. -/
def stage1Options (camera_model : String) (nthreads : Nat) :
    BundleAdjustmentOptions :=
  { baseBaOptions nthreads with
    constant_camera_orientation := false
    constant_camera_position := false
    intrinsics_to_optimize :=
      { focalLength := true
        radialDistortion := !(camera_model == "PINHOLE") } }

/-- Stage-2 options: hold orientation and position constant, free only the
principal points. -/
def stage2Options (nthreads : Nat) : BundleAdjustmentOptions :=
  { baseBaOptions nthreads with
    constant_camera_orientation := true
    constant_camera_position := true
    intrinsics_to_optimize := { principalPoints := true } }

/-- Stage-3 options: free pose, principal points, focal length and aspect
ratio, adding radial distortion exactly for PINHOLE and tangential
distortion exactly for PINHOLE_RADIAL_TANGENTIAL. -/
def stage3Options (camera_model : String) (nthreads : Nat) :
    BundleAdjustmentOptions :=
  { baseBaOptions nthreads with
    constant_camera_orientation := false
    constant_camera_position := false
    intrinsics_to_optimize :=
      { principalPoints := true
        focalLength := true
        aspectRatioFlag := true
        radialDistortion := camera_model == "PINHOLE"
        tangentialDistortion := camera_model == "PINHOLE_RADIAL_TANGENTIAL" } }

/-- Stage-4 (board points) options: the stage-3 options with homogeneous
point parametrization switched on. -/
def boardOptions (camera_model : String) (nthreads : Nat) :
    BundleAdjustmentOptions :=
  { stage3Options camera_model nthreads with
    use_homogeneous_point_parametrization := true
    verbose := true }

/-- One entry of the call trace of `RunCalibration`: which external solver
call or pruning sweep ran, with which options and on which ids. -/
inductive BAEvent where
  | bundleAdjustViews : BundleAdjustmentOptions → List ViewId → BAEvent
  | removeViews : ℚ → BAEvent
  | bundleAdjustTracks : BundleAdjustmentOptions → List TrackId → BAEvent
deriving DecidableEq, Repr

/-- Dataset after the stage-1 bundle adjustment of `RunCalibration`. -/
def afterStage1 (adj : AdjustViewsFn) (nthreads : Nat) (cc : CameraCalibrator)
    (ds : Dataset) : Dataset :=
  BundleAdjustViews adj (stage1Options cc.camera_model_ nthreads) ds.ViewIds ds

/-- Dataset after the stage-1 pruning sweep at 5.0 px. -/
def afterStage1Prune (adj : AdjustViewsFn) (err : ReprojErrorFn) (nthreads : Nat)
    (cc : CameraCalibrator) (ds : Dataset) : Dataset :=
  RemoveViewsReprojError err 5 (afterStage1 adj nthreads cc ds)

/-- Dataset after the stage-2 (principal point) bundle adjustment. -/
def afterStage2 (adj : AdjustViewsFn) (err : ReprojErrorFn) (nthreads : Nat)
    (cc : CameraCalibrator) (ds : Dataset) : Dataset :=
  let d := afterStage1Prune adj err nthreads cc ds
  BundleAdjustViews adj (stage2Options nthreads) d.ViewIds d

/-- Dataset after the stage-3 (full) bundle adjustment. -/
def afterStage3 (adj : AdjustViewsFn) (err : ReprojErrorFn) (nthreads : Nat)
    (cc : CameraCalibrator) (ds : Dataset) : Dataset :=
  let d := afterStage2 adj err nthreads cc ds
  BundleAdjustViews adj (stage3Options cc.camera_model_ nthreads) d.ViewIds d

/-- Dataset after the stage-3 pruning sweep at 2.0 px. -/
def afterStage3Prune (adj : AdjustViewsFn) (err : ReprojErrorFn) (nthreads : Nat)
    (cc : CameraCalibrator) (ds : Dataset) : Dataset :=
  RemoveViewsReprojError err 2 (afterStage3 adj err nthreads cc ds)

/-- Embedding of `CameraCalibrator::RunCalibration`, line for line: the
entry gate on `min_num_view_`, the three staged bundle adjustments with
pruning sweeps at 5.0 px and 2.0 px, the two later gates, and the optional
board-point refinement.  Besides the success flag and the final dataset it
returns the trace of external solver calls and pruning sweeps, in order. -/
def RunCalibration (adj : AdjustViewsFn) (adjT : AdjustTracksFn)
    (err : ReprojErrorFn) (nthreads : Nat) (cc : CameraCalibrator)
    (ds : Dataset) : Bool × Dataset × List BAEvent :=
  if ds.NumViews < cc.min_num_view_ then (false, ds, [])
  else
    let ds1p := afterStage1Prune adj err nthreads cc ds
    let ds2 := afterStage2 adj err nthreads cc ds
    let events2 : List BAEvent :=
      [ .bundleAdjustViews (stage1Options cc.camera_model_ nthreads) ds.ViewIds
      , .removeViews 5
      , .bundleAdjustViews (stage2Options nthreads) ds1p.ViewIds ]
    if ds2.NumViews < cc.min_num_view_ then (false, ds2, events2)
    else
      let ds3p := afterStage3Prune adj err nthreads cc ds
      let events3 : List BAEvent :=
        events2 ++
          [ .bundleAdjustViews (stage3Options cc.camera_model_ nthreads)
              ds2.ViewIds
          , .removeViews 2 ]
      if ds3p.NumViews < cc.min_num_view_ then (false, ds3p, events3)
      else if cc.optimize_board_pts_ then
        let bo := boardOptions cc.camera_model_ nthreads
        let ds4 := BundleAdjustTracks adjT bo ds3p.TrackIds ds3p
        let ds5 := BundleAdjustViews adj bo ds4.ViewIds ds4
        (true, ds5,
          events3 ++
            [ .bundleAdjustTracks bo ds3p.TrackIds
            , .bundleAdjustViews bo ds4.ViewIds ])
      else (true, ds3p, events3)

end CameraCalibrator

/-! ## View creation and ingestion -/

/-- Conversion factor `S_TO_US` used when the view name is derived from the
timestamp. -/
def S_TO_US : ℚ := 1000000

namespace CameraCalibrator

/-- Embedding of `CameraCalibrator::AddView`: create a view with a fresh id,
mark it estimated, seed the camera (image size, principal point at the image
center, pose, focal length, model type) and apply the model-specific
distortion seeds; the new view carries no observations yet. -/
def AddView (cc : CameraCalibrator) (initial_rotation : Mat3)
    (initial_position : Vec3) (initial_focal_length initial_distortion : ℚ)
    (image_width image_height : Nat) (timestamp_s : ℚ) (ds : Dataset) :
    ViewId × Dataset :=
  let view_id := ds.nextViewId
  let cam := defaultCamera
  let cam := cam.SetImageSize image_width image_height
  let cam := cam.SetPrincipalPoint ((image_width : ℚ) / 2) ((image_height : ℚ) / 2)
  let cam := cam.SetFocalLength initial_focal_length
  let cam := cam.SetCameraIntrinsicsModelType cc.camera_model_
  let cam :=
    if cc.camera_model_ == "PINHOLE" then cam
    else if cc.camera_model_ == "DIVISION_UNDISTORTION" then
      cam.SetParameter DivisionUndistortionCameraModel.RADIAL_DISTORTION_1
        initial_distortion
    else if cc.camera_model_ == "DOUBLE_SPHERE" then
      (cam.SetParameter DoubleSphereCameraModel.XI (-1/4)).SetParameter
        DoubleSphereCameraModel.ALPHA (1/2)
    else if cc.camera_model_ == "EXTENDED_UNIFIED" then
      (cam.SetParameter ExtendedUnifiedCameraModel.ALPHA (1/2)).SetParameter
        ExtendedUnifiedCameraModel.BETA 1
    else if cc.camera_model_ == "FISHEYE" then cam
    else if cc.camera_model_ == "PINHOLE_RADIAL_TANGENTIAL" then cam
    else cam
  let theia_view : View :=
    { timestamp := timestamp_s
      estimated := true
      rotation := initial_rotation
      position := initial_position
      camera := cam
      obs := [] }
  (view_id,
    { ds with
      views := ds.views ++ [(view_id, theia_view)]
      nextViewId := view_id + 1 })

/-- Embedding of `CameraCalibrator::AddObservation`. -/
def AddObservation (ds : Dataset) (view_id : ViewId)
    (object_point_id : TrackId) (corner : ℚ × ℚ) : Bool × Dataset :=
  ds.AddObservation view_id object_point_id corner

end CameraCalibrator

/-- A 2D↔3D correspondence handed to the robust pose estimators
(`theia::FeatureCorrespondence2D3D`). -/
structure FeatureCorrespondence2D3D where
  feature : ℚ × ℚ
  world_point : Vec3
deriving DecidableEq, Repr

/-- Which robust pose estimator `CalibrateCameraFromJson` dispatches to:
`utils::initialize_pinhole_camera` (pose and focal length, no distortion
terms) or `utils::initialize_radial_undistortion_camera` (pose, focal
length and one joint radial-distortion term). -/
inductive PoseEstimatorKind where
  | pinholeCamera
  | radialUndistortionCamera
deriving DecidableEq, Repr

/-- Outcome of one robust pose-initializer call: the success flag and the
estimated rotation, position, focal length and single radial-distortion
coefficient. -/
structure PoseInitOutcome where
  success : Bool
  rotation : Mat3
  position : Vec3
  focal_length : ℚ
  radial_distortion : ℚ
deriving DecidableEq, Repr

/-- The external RANSAC pose initializers, abstracted: given which estimator
is called, the RANSAC parameters, the correspondences and the image size,
return the estimate. -/
abbrev PoseInitFn :=
  PoseEstimatorKind → RansacParameters → List FeatureCorrespondence2D3D →
    Nat → Nat → PoseInitOutcome

/-- One view of the scene JSON: the microsecond timestamp key and the map
from board-point id to the detected pixel position. -/
structure SceneView where
  timestamp_us : ℚ
  image_points : List (TrackId × ℚ × ℚ)
deriving DecidableEq, Repr

/-- The scene JSON fields `CalibrateCameraFromJson` consumes. -/
structure SceneJson where
  image_width : Nat
  image_height : Nat
  camera_fps : ℚ
  views : List SceneView
deriving DecidableEq, Repr

/-- State threaded through the per-frame ingestion loop of
`CalibrateCameraFromJson`: the mutable RANSAC parameters, the positions of
the views accepted so far (`saved_poses`), the dataset, and a trace of the
initializer calls (estimator kind and the RANSAC error threshold used). -/
structure IngestState where
  ransac_params : RansacParameters
  saved_poses : List Vec3
  dataset : Dataset
  initCalls : List (PoseEstimatorKind × ℚ)
deriving Repr

namespace CameraCalibrator

/-- The estimator `CalibrateCameraFromJson` selects for a camera-model
string, mirroring its if/else chain: the two pinhole kinds use the pinhole
initializer, `DIVISION_UNDISTORTION` and every remaining kind use the shared
radial-undistortion initializer. -/
def estimatorFor (camera_model : String) : PoseEstimatorKind :=
  if camera_model == "PINHOLE" || camera_model == "PINHOLE_RADIAL_TANGENTIAL"
  then .pinholeCamera
  else if camera_model == "DIVISION_UNDISTORTION" then
    .radialUndistortionCamera
  else .radialUndistortionCamera

/-- The correspondences built for one frame: pixel positions recentered by
the initial principal point, board points looked up in the dataset's tracks
and dehomogenized. -/
def frameCorrespondences (image_width image_height : Nat) (ds : Dataset)
    (v : SceneView) : List FeatureCorrespondence2D3D :=
  let px := (image_width : ℚ) / 2
  let py := (image_height : ℚ) / 2
  v.image_points.map fun p =>
    { feature := (p.2.1 - px, p.2.2 - py)
      world_point := ((ds.Track? p.1).getD ⟨0, 0, 0, 1⟩).hnormalized }

/-- The pose-initializer outcome for one frame in a given ingestion state:
the error threshold is reset to 0.3% of the image height, then the
estimator selected by the camera model runs on the frame's
correspondences. -/
def frameOutcome (pinit : PoseInitFn) (cc : CameraCalibrator)
    (image_width image_height : Nat) (st : IngestState) (v : SceneView) :
    PoseInitOutcome :=
  let rp := { st.ransac_params with error_thresh := 3/1000 * (image_height : ℚ) }
  pinit (estimatorFor cc.camera_model_) rp
    (frameCorrespondences image_width image_height st.dataset v)
    image_width image_height

/-- One iteration of the ingestion loop of `CalibrateCameraFromJson`
(lines 236–340 of the source): set the RANSAC error threshold, run the
selected pose initializer, skip the frame if a previously saved position is
closer than `grid_size_` or if initialization failed, and otherwise save the
position, add the view and add one observation per board point. -/
def ingestFrame (pinit : PoseInitFn) (cc : CameraCalibrator)
    (image_width image_height : Nat) (st : IngestState) (v : SceneView) :
    IngestState :=
  let rp := { st.ransac_params with error_thresh := 3/1000 * (image_height : ℚ) }
  let kind := estimatorFor cc.camera_model_
  let out := frameOutcome pinit cc image_width image_height st v
  let take_image :=
    !(st.saved_poses.any fun sp => (out.position.sub sp).normLt cc.grid_size_)
  let st' :=
    { st with
      ransac_params := rp
      initCalls := st.initCalls ++ [(kind, rp.error_thresh)] }
  if !take_image || !out.success then st'
  else
    let timestamp_s := v.timestamp_us * (1 / S_TO_US)
    let added :=
      cc.AddView out.rotation out.position out.focal_length
        out.radial_distortion image_width image_height timestamp_s st'.dataset
    let ds :=
      v.image_points.foldl
        (fun d p => (CameraCalibrator.AddObservation d added.1 p.1 p.2).2)
        added.2
    { st' with
      saved_poses := st'.saved_poses ++ [out.position]
      dataset := ds }

/-- The whole ingestion loop over the scene's views. -/
def ingestAll (pinit : PoseInitFn) (cc : CameraCalibrator)
    (image_width image_height : Nat) (st : IngestState)
    (vs : List SceneView) : IngestState :=
  vs.foldl (ingestFrame pinit cc image_width image_height) st

end CameraCalibrator

/-- The camera the result reporting reads: the camera of the first view id
of the dataset (`recon_calib_dataset_.View(recon_calib_dataset_.ViewIds()[0])
->Camera()`).  Indexing an empty id vector is undefined behaviour in the
source; the embedding returns `none` there. -/
def firstViewCamera (ds : Dataset) : Option Camera :=
  ds.ViewIds.head?.bind fun id => (ds.View? id).map View.camera

/-- The parameter lines `CameraCalibrator::PrintResult` writes for a camera:
focal length and principal point always, then the model-specific distortion
block selected by comparing `camera_model_` against the literals of the
source — including its `"PINHOLE_DISTORTION"` literal in the branch that
prints the radial-tangential coefficients. -/
def printedParams (camera_model : String) (cam : Camera) : List (String × ℚ) :=
  [ ("Focal Length", cam.FocalLength)
  , ("Principal Point X", cam.PrincipalPointX)
  , ("Principal Point Y", cam.PrincipalPointY) ] ++
  (if camera_model == "DIVISION_UNDISTORTION" then
    [ ("Distortion", cam.intr DivisionUndistortionCameraModel.RADIAL_DISTORTION_1) ]
  else if camera_model == "DOUBLE_SPHERE" then
    [ ("XI", cam.intr DoubleSphereCameraModel.XI)
    , ("ALPHA", cam.intr DoubleSphereCameraModel.ALPHA) ]
  else if camera_model == "EXTENDED_UNIFIED" then
    [ ("ALPHA", cam.intr ExtendedUnifiedCameraModel.ALPHA)
    , ("BETA", cam.intr ExtendedUnifiedCameraModel.BETA) ]
  else if camera_model == "FISHEYE" then
    [ ("Radial distortion 1", cam.intr FisheyeCameraModel.RADIAL_DISTORTION_1)
    , ("Radial distortion 2", cam.intr FisheyeCameraModel.RADIAL_DISTORTION_2)
    , ("Radial distortion 3", cam.intr FisheyeCameraModel.RADIAL_DISTORTION_3)
    , ("Radial distortion 4", cam.intr FisheyeCameraModel.RADIAL_DISTORTION_4) ]
  else if camera_model == "PINHOLE_DISTORTION" then
    [ ("Radial distortion 1",
        cam.intr PinholeRadialTangentialCameraModel.RADIAL_DISTORTION_1)
    , ("Radial distortion 2",
        cam.intr PinholeRadialTangentialCameraModel.RADIAL_DISTORTION_2)
    , ("Radial distortion 3",
        cam.intr PinholeRadialTangentialCameraModel.RADIAL_DISTORTION_3)
    , ("Tangential distortion 1",
        cam.intr PinholeRadialTangentialCameraModel.TANGENTIAL_DISTORTION_1)
    , ("Tangential distortion 2",
        cam.intr PinholeRadialTangentialCameraModel.TANGENTIAL_DISTORTION_2) ]
  else [])

/-- Embedding of `CameraCalibrator::PrintResult`: read the camera of the
first view id and report its parameters. -/
def CameraCalibrator.PrintResult (cc : CameraCalibrator) (ds : Dataset) :
    Option (List (String × ℚ)) :=
  (firstViewCamera ds).map (printedParams cc.camera_model_)

/-- Embedding of `CameraCalibrator::CalibrateCameraFromJson` after the
per-frame loop: run the staged optimizer on the ingested dataset; on failure
report nothing, on success average the per-view RMS errors and read the
final intrinsics from the camera of the first view id.  The dataset
argument is the state after `io::scene_points_to_calib_dataset` has
populated the target points. -/
def CameraCalibrator.CalibrateCameraFromJson (pinit : PoseInitFn)
    (adj : AdjustViewsFn) (adjT : AdjustTracksFn) (err : ReprojErrorFn)
    (nthreads : Nat) (cc : CameraCalibrator) (ds0 : Dataset)
    (scene : SceneJson) : Bool × Dataset × Option (Camera × ℚ) :=
  let st0 : IngestState :=
    { ransac_params := constructorRansacParams
      saved_poses := []
      dataset := ds0
      initCalls := [] }
  let stF :=
    CameraCalibrator.ingestAll pinit cc scene.image_width scene.image_height
      st0 scene.views
  match cc.RunCalibration adj adjT err nthreads stF.dataset with
  | (false, dsF, _) => (false, dsF, none)
  | (true, dsF, _) =>
    let reproj_error := (dsF.views.map fun p => err dsF.tracks p.2).sum
    let total_repro_error := reproj_error / (dsF.NumViews : ℚ)
    (true, dsF, (firstViewCamera dsF).map fun c => (c, total_repro_error))

/-! ## Calibration file round trip -/

/-- The calibration JSON file: the model kind, image size, fps, view count,
final error, and the named intrinsics entries. -/
structure CalibJson where
  intrinsic_type : String
  image_width : Nat
  image_height : Nat
  fps : ℚ
  nr_calib_images : Nat
  final_reproj_error : ℚ
  intrinsics : List (String × ℚ)
deriving DecidableEq, Repr

/-- Read one named intrinsics entry of the JSON (missing keys make the C++
reader throw; the embedding returns 0, a case the round-trip statements
never reach because the writer emits every key the reader asks for). -/
def CalibJson.get (js : CalibJson) (key : String) : ℚ :=
  (js.intrinsics.lookup key).getD 0

/-- Modelled from the spec: `OpenICC::io::write_camera_calibration` is
declared in `io/write_camera_calibration.h` but its definition is not among
these sources.  Per §6 the written file holds the model kind, focal length,
principal point x/y, aspect ratio and the model-specific distortion
coefficient set — one radial term for division-undistortion, the shape and
scale pair for the double-sphere and extended-unified models, four radial
terms for fisheye, three radial plus two tangential terms for the
radial-tangential pinhole model, and no distortion entry for the plain
pinhole model — under the key names the read path of §6 consumes. -/
def write_camera_calibration (cam : Camera) (fps : ℚ) (nr_calib_images : Nat)
    (final_reproj_error : ℚ) : CalibJson :=
  { intrinsic_type := cam.modelType
    image_width := cam.imageWidth
    image_height := cam.imageHeight
    fps := fps
    nr_calib_images := nr_calib_images
    final_reproj_error := final_reproj_error
    intrinsics :=
      [ ("focal_length", cam.FocalLength)
      , ("principal_pt_x", cam.PrincipalPointX)
      , ("principal_pt_y", cam.PrincipalPointY)
      , ("aspect_ratio", cam.intr 1) ] ++
      (if cam.modelType == "DIVISION_UNDISTORTION" then
        [ ("div_undist_distortion",
            cam.intr DivisionUndistortionCameraModel.RADIAL_DISTORTION_1) ]
      else if cam.modelType == "DOUBLE_SPHERE" then
        [ ("xi", cam.intr DoubleSphereCameraModel.XI)
        , ("alpha", cam.intr DoubleSphereCameraModel.ALPHA) ]
      else if cam.modelType == "EXTENDED_UNIFIED" then
        [ ("alpha", cam.intr ExtendedUnifiedCameraModel.ALPHA)
        , ("beta", cam.intr ExtendedUnifiedCameraModel.BETA) ]
      else if cam.modelType == "FISHEYE" then
        [ ("radial_distortion_1", cam.intr FisheyeCameraModel.RADIAL_DISTORTION_1)
        , ("radial_distortion_2", cam.intr FisheyeCameraModel.RADIAL_DISTORTION_2)
        , ("radial_distortion_3", cam.intr FisheyeCameraModel.RADIAL_DISTORTION_3)
        , ("radial_distortion_4", cam.intr FisheyeCameraModel.RADIAL_DISTORTION_4) ]
      else if cam.modelType == "PINHOLE_RADIAL_TANGENTIAL" then
        [ ("radial_distortion_1",
            cam.intr PinholeRadialTangentialCameraModel.RADIAL_DISTORTION_1)
        , ("radial_distortion_2",
            cam.intr PinholeRadialTangentialCameraModel.RADIAL_DISTORTION_2)
        , ("radial_distortion_3",
            cam.intr PinholeRadialTangentialCameraModel.RADIAL_DISTORTION_3)
        , ("tangential_distortion_1",
            cam.intr PinholeRadialTangentialCameraModel.TANGENTIAL_DISTORTION_1)
        , ("tangential_distortion_2",
            cam.intr PinholeRadialTangentialCameraModel.TANGENTIAL_DISTORTION_2) ]
      else []) }

/-- Embedding of `OpenICC::io::read_camera_calibration`, line for line: set
the model type, the image size, the principal point and the focal length,
then fill the model-specific slots the branch for the file's
`intrinsic_type` reads — the `PINHOLE` branch restores only the aspect
ratio. -/
def read_camera_calibration (js : CalibJson) (camera : Camera) : Camera × ℚ :=
  let camera := camera.SetCameraIntrinsicsModelType js.intrinsic_type
  let camera := camera.SetImageSize js.image_width js.image_height
  let camera :=
    camera.SetPrincipalPoint (js.get "principal_pt_x") (js.get "principal_pt_y")
  let camera := camera.SetFocalLength (js.get "focal_length")
  let fps := js.fps
  let camera :=
    if js.intrinsic_type == "DIVISION_UNDISTORTION" then
      (camera.SetParameter DivisionUndistortionCameraModel.RADIAL_DISTORTION_1
        (js.get "div_undist_distortion")).SetParameter
        DivisionUndistortionCameraModel.ASPECT_RATIO_ (js.get "aspect_ratio")
    else if js.intrinsic_type == "DOUBLE_SPHERE" then
      ((camera.SetParameter DoubleSphereCameraModel.XI
        (js.get "xi")).SetParameter DoubleSphereCameraModel.ALPHA
        (js.get "alpha")).SetParameter DoubleSphereCameraModel.ASPECT_RATIO_
        (js.get "aspect_ratio")
    else if js.intrinsic_type == "EXTENDED_UNIFIED" then
      ((camera.SetParameter ExtendedUnifiedCameraModel.ALPHA
        (js.get "alpha")).SetParameter ExtendedUnifiedCameraModel.BETA
        (js.get "beta")).SetParameter ExtendedUnifiedCameraModel.ASPECT_RATIO_
        (js.get "aspect_ratio")
    else if js.intrinsic_type == "FISHEYE" then
      ((((camera.SetParameter FisheyeCameraModel.RADIAL_DISTORTION_1
        (js.get "radial_distortion_1")).SetParameter
        FisheyeCameraModel.RADIAL_DISTORTION_2
        (js.get "radial_distortion_2")).SetParameter
        FisheyeCameraModel.RADIAL_DISTORTION_3
        (js.get "radial_distortion_3")).SetParameter
        FisheyeCameraModel.RADIAL_DISTORTION_4
        (js.get "radial_distortion_4")).SetParameter
        FisheyeCameraModel.ASPECT_RATIO_ (js.get "aspect_ratio")
    else if js.intrinsic_type == "PINHOLE_RADIAL_TANGENTIAL" then
      (((((camera.SetParameter
        PinholeRadialTangentialCameraModel.RADIAL_DISTORTION_1
        (js.get "radial_distortion_1")).SetParameter
        PinholeRadialTangentialCameraModel.RADIAL_DISTORTION_2
        (js.get "radial_distortion_2")).SetParameter
        PinholeRadialTangentialCameraModel.RADIAL_DISTORTION_3
        (js.get "radial_distortion_3")).SetParameter
        PinholeRadialTangentialCameraModel.TANGENTIAL_DISTORTION_1
        (js.get "tangential_distortion_1")).SetParameter
        PinholeRadialTangentialCameraModel.TANGENTIAL_DISTORTION_2
        (js.get "tangential_distortion_2")).SetParameter
        PinholeRadialTangentialCameraModel.ASPECT_RATIO_ (js.get "aspect_ratio")
    else if js.intrinsic_type == "PINHOLE" then
      camera.SetParameter PinholeCameraModel.ASPECT_RATIO_
        (js.get "aspect_ratio")
    else camera
  (camera, fps)

/-! ## Structural lemmas about the external-solver wrappers -/

lemma numViews_BundleAdjustViews (adj : AdjustViewsFn)
    (o : BundleAdjustmentOptions) (ids : List ViewId) (ds : Dataset) :
    (BundleAdjustViews adj o ids ds).NumViews = ds.NumViews := by
  simp [BundleAdjustViews, Dataset.NumViews]

lemma viewIds_BundleAdjustViews (adj : AdjustViewsFn)
    (o : BundleAdjustmentOptions) (ids : List ViewId) (ds : Dataset) :
    (BundleAdjustViews adj o ids ds).ViewIds = ds.ViewIds := by
  simp only [BundleAdjustViews, Dataset.ViewIds, List.map_map]
  apply List.map_congr_left
  intro p _
  by_cases h : p.1 ∈ ids <;> simp [h]

lemma tracks_BundleAdjustViews (adj : AdjustViewsFn)
    (o : BundleAdjustmentOptions) (ids : List ViewId) (ds : Dataset) :
    (BundleAdjustViews adj o ids ds).tracks = ds.tracks := rfl

lemma views_BundleAdjustTracks (adjT : AdjustTracksFn)
    (o : BundleAdjustmentOptions) (ids : List TrackId) (ds : Dataset) :
    (BundleAdjustTracks adjT o ids ds).views = ds.views := rfl

lemma removeView_tracks (ds : Dataset) (id : ViewId) :
    (ds.RemoveView id).tracks = ds.tracks := rfl

lemma foldl_removeView_tracks (ids : List ViewId) (ds : Dataset) :
    (ids.foldl Dataset.RemoveView ds).tracks = ds.tracks := by
  induction ids generalizing ds with
  | nil => rfl
  | cons i is ih => simpa using ih (ds.RemoveView i)

lemma mem_foldl_removeView (ids : List ViewId) (ds : Dataset)
    (p : ViewId × View) (hp : p ∈ (ids.foldl Dataset.RemoveView ds).views) :
    p ∈ ds.views ∧ p.1 ∉ ids := by
  induction ids generalizing ds with
  | nil => simpa using hp
  | cons i is ih =>
    have h := ih (ds.RemoveView i) (by simpa using hp)
    simp only [Dataset.RemoveView, List.mem_filter] at h
    refine ⟨h.1.1, ?_⟩
    simp only [List.mem_cons, not_or]
    exact ⟨by simpa using h.1.2, h.2⟩

/-- Every view surviving a pruning sweep has RMS reprojection error at most
the threshold. -/
lemma survivors_le_thr (err : ReprojErrorFn) (thr : ℚ) (ds : Dataset)
    (p : ViewId × View)
    (hp : p ∈ (CameraCalibrator.RemoveViewsReprojError err thr ds).views) :
    ¬ thr < err ds.tracks p.2 := by
  intro hbad
  obtain ⟨hmem, hnot⟩ := mem_foldl_removeView _ _ _ hp
  exact hnot (List.mem_map.mpr ⟨p, List.mem_filter.mpr ⟨hmem, by simpa using hbad⟩, rfl⟩)

lemma removeViewsReprojError_tracks (err : ReprojErrorFn) (thr : ℚ)
    (ds : Dataset) :
    (CameraCalibrator.RemoveViewsReprojError err thr ds).tracks = ds.tracks :=
  foldl_removeView_tracks _ _

/-! ## C7: the pruning sweep is idempotent -/

/-- C7: for every per-view error function, threshold and dataset, running
`RemoveViewsReprojError` a second time with the same threshold (parameters
unchanged in between) removes zero additional views: every view's RMS
reprojection error depends only on the target points and the view itself,
and all condemned ids are collected before any removal, so after one sweep
no surviving view exceeds the threshold and the second sweep's condemned
set is empty. -/
theorem prune_idempotent (err : ReprojErrorFn) (thr : ℚ) (ds : Dataset) :
    CameraCalibrator.RemoveViewsReprojError err thr
      (CameraCalibrator.RemoveViewsReprojError err thr ds) =
      CameraCalibrator.RemoveViewsReprojError err thr ds := by
  set ds' := CameraCalibrator.RemoveViewsReprojError err thr ds with hds'
  have htracks : ds'.tracks = ds.tracks := removeViewsReprojError_tracks _ _ _
  have hempty :
      (ds'.views.filter fun p => thr < err ds'.tracks p.2) = [] := by
    rw [List.filter_eq_nil_iff]
    intro p hp
    have := survivors_le_thr err thr ds p (hds' ▸ hp)
    simpa [htracks] using this
  show (CameraCalibrator.RemoveViewsReprojError err thr ds') = ds'
  unfold CameraCalibrator.RemoveViewsReprojError
  rw [hempty]
  rfl

/-! ## C2: the entry gate fails without mutating anything -/

/-- C2: whenever the dataset holds fewer views than the configured minimum
at entry, `RunCalibration` returns failure with the dataset unchanged — no
bundle-adjustment call and no pruning sweep has run (the trace is empty),
so no view's pose or camera parameters were mutated. -/
theorem minViewGate_no_mutation (adj : AdjustViewsFn) (adjT : AdjustTracksFn)
    (err : ReprojErrorFn) (nthreads : Nat) (cc : CameraCalibrator)
    (ds : Dataset) (h : ds.NumViews < cc.min_num_view_) :
    cc.RunCalibration adj adjT err nthreads ds = (false, ds, []) := by
  simp [CameraCalibrator.RunCalibration, h]

/-! ## Concrete fixtures shared by the closed instances below -/

/-- The identity view adjuster (an admissible instance of the abstract
solver: it changes nothing). -/
def adjId : AdjustViewsFn := fun _ _ _ v => v

/-- The identity track adjuster. -/
def adjTId : AdjustTracksFn := fun _ _ _ p => p

/-- A reprojection-error function that reports the same error for every
view. -/
def errConst (q : ℚ) : ReprojErrorFn := fun _ _ => q

def idRot : Mat3 := (⟨1, 0, 0⟩, ⟨0, 1, 0⟩, ⟨0, 0, 1⟩)

def testCamera : Camera :=
  { modelType := "PINHOLE"
    imageWidth := 1920
    imageHeight := 1080
    intrinsics := [800, 1, 0, 960, 540, 0, 0] }

def testView : View :=
  { timestamp := 0
    estimated := true
    rotation := idRot
    position := ⟨0, 0, 0⟩
    camera := testCamera
    obs := [] }

/-- A dataset with a single pinhole view. -/
def testDs1 : Dataset := { views := [(0, testView)], nextViewId := 1, tracks := [] }

/-- The empty dataset. -/
def emptyDs : Dataset := { views := [], nextViewId := 0, tracks := [] }

def cc2fix : CameraCalibrator :=
  { camera_model_ := "PINHOLE"
    optimize_board_pts_ := false
    min_num_view_ := 5
    grid_size_ := 1/100 }

/-- Closed instance of the entry gate: one pinhole view against a minimum of
five views makes `RunCalibration` fail with an untouched dataset and an
empty call trace. -/
theorem minViewGate_no_mutation_witness :
    testDs1.NumViews < cc2fix.min_num_view_ ∧
      cc2fix.RunCalibration adjId adjTId (errConst 0) 1 testDs1 =
        (false, testDs1, []) :=
  ⟨by decide, minViewGate_no_mutation adjId adjTId (errConst 0) 1 cc2fix
    testDs1 (by decide)⟩

/-! ## C1: where the post-prune gate really sits -/

def cc1fix : CameraCalibrator :=
  { camera_model_ := "PINHOLE"
    optimize_board_pts_ := false
    min_num_view_ := 1
    grid_size_ := 1/100 }

/-- C1 counterexample: with one view, a minimum of one view and every view's
RMS error above the 5.0 px threshold, the stage-1 pruning sweep leaves the
dataset below the minimum — yet the call trace of `RunCalibration` still
contains the stage-2 principal-point bundle adjustment (on the now-empty
view set) before the failure: the gate that follows the stage-1 sweep is
evaluated only after stage 2 has run, so the claimed "failure immediately,
before any further optimization stage" is false here. -/
theorem stage2RunsBelowMinimum :
    (CameraCalibrator.afterStage1Prune adjId (errConst 10) 1 cc1fix
        testDs1).NumViews < cc1fix.min_num_view_ ∧
      (cc1fix.RunCalibration adjId adjTId (errConst 10) 1 testDs1).1 = false ∧
      (cc1fix.RunCalibration adjId adjTId (errConst 10) 1 testDs1).2.2 =
        [ .bundleAdjustViews (CameraCalibrator.stage1Options "PINHOLE" 1) [0]
        , .removeViews 5
        , .bundleAdjustViews (CameraCalibrator.stage2Options 1) [] ] := by
  refine ⟨by decide, by decide, rfl⟩

/-- C1 amended: the minimum-view threshold is checked at entry and after
each pruning sweep, and a failed check makes `RunCalibration` return failure
before stage 3 (and before the 2.0 px sweep); however, the check that
follows the stage-1 pruning sweep at 5.0 px runs only after the stage-2
principal-point refinement has already executed, so when fewer than the
minimum views survive that sweep, stage 2 still runs and the failure is
returned immediately after it, with the stage-2 bundle adjustment as the
last event of the trace. -/
theorem gateAfterStage1PruneFollowsStage2 (adj : AdjustViewsFn)
    (adjT : AdjustTracksFn) (err : ReprojErrorFn) (nthreads : Nat)
    (cc : CameraCalibrator) (ds : Dataset)
    (h0 : ¬ ds.NumViews < cc.min_num_view_)
    (h1 : (CameraCalibrator.afterStage1Prune adj err nthreads cc ds).NumViews <
      cc.min_num_view_) :
    cc.RunCalibration adj adjT err nthreads ds =
      (false, CameraCalibrator.afterStage2 adj err nthreads cc ds,
        [ .bundleAdjustViews (CameraCalibrator.stage1Options cc.camera_model_
            nthreads) ds.ViewIds
        , .removeViews 5
        , .bundleAdjustViews (CameraCalibrator.stage2Options nthreads)
            (CameraCalibrator.afterStage1Prune adj err nthreads cc
              ds).ViewIds ]) := by
  have hgate :
      (CameraCalibrator.afterStage2 adj err nthreads cc ds).NumViews <
        cc.min_num_view_ := by
    simpa [CameraCalibrator.afterStage2, numViews_BundleAdjustViews] using h1
  simp [CameraCalibrator.RunCalibration, h0, hgate]

/-- Closed instance of the amended C1 statement, at the counterexample
inputs. -/
theorem gateAfterStage1PruneFollowsStage2_witness :
    (¬ testDs1.NumViews < cc1fix.min_num_view_) ∧
      (CameraCalibrator.afterStage1Prune adjId (errConst 10) 1 cc1fix
          testDs1).NumViews < cc1fix.min_num_view_ ∧
      cc1fix.RunCalibration adjId adjTId (errConst 10) 1 testDs1 =
        (false, CameraCalibrator.afterStage2 adjId (errConst 10) 1 cc1fix
          testDs1,
          [ .bundleAdjustViews (CameraCalibrator.stage1Options
              cc1fix.camera_model_ 1) testDs1.ViewIds
          , .removeViews 5
          , .bundleAdjustViews (CameraCalibrator.stage2Options 1)
              (CameraCalibrator.afterStage1Prune adjId (errConst 10) 1 cc1fix
                testDs1).ViewIds ]) :=
  ⟨by decide, by decide,
    gateAfterStage1PruneFollowsStage2 adjId adjTId (errConst 10) 1 cc1fix
      testDs1 (by decide) (by decide)⟩

/-! ## C3: the staged parameter schedule -/

lemma viewIds_BundleAdjustTracks (adjT : AdjustTracksFn)
    (o : BundleAdjustmentOptions) (ids : List TrackId) (ds : Dataset) :
    (BundleAdjustTracks adjT o ids ds).ViewIds = ds.ViewIds := rfl

lemma trackIds_BundleAdjustTracks (adjT : AdjustTracksFn)
    (o : BundleAdjustmentOptions) (ids : List TrackId) (ds : Dataset) :
    (BundleAdjustTracks adjT o ids ds).TrackIds = ds.TrackIds := by
  simp only [BundleAdjustTracks, Dataset.TrackIds, List.map_map]
  apply List.map_congr_left
  intro p _
  by_cases h : p.1 ∈ ids <;> simp [h]

/-- C3: whenever all three minimum-view gates pass, `RunCalibration`
executes exactly the staged schedule — stage 1 with free orientation,
position and focal length, radial distortion added exactly when the model is
not PINHOLE and the principal point held fixed; the 5.0 px pruning sweep;
stage 2 with orientation and position constant and only the principal points
free; stage 3 with free pose, focal length, principal point and aspect
ratio, radial distortion exactly for PINHOLE and tangential distortion
exactly for PINHOLE_RADIAL_TANGENTIAL; the 2.0 px pruning sweep; and, only
if board-point optimization is enabled, the final homogeneous-point
refinement pair. -/
theorem stagedSchedule (adj : AdjustViewsFn) (adjT : AdjustTracksFn)
    (err : ReprojErrorFn) (nthreads : Nat) (cc : CameraCalibrator)
    (ds : Dataset) (h0 : ¬ ds.NumViews < cc.min_num_view_)
    (h2 : ¬ (CameraCalibrator.afterStage1Prune adj err nthreads cc
      ds).NumViews < cc.min_num_view_)
    (h3 : ¬ (CameraCalibrator.afterStage3Prune adj err nthreads cc
      ds).NumViews < cc.min_num_view_) :
    (cc.RunCalibration adj adjT err nthreads ds).2.2 =
      [ .bundleAdjustViews
          { verbose := true
            loss_function_type := "HUBER"
            robust_loss_width := 1345/1000
            num_threads := nthreads
            constant_camera_orientation := false
            constant_camera_position := false
            intrinsics_to_optimize :=
              { focalLength := true
                aspectRatioFlag := false
                principalPoints := false
                radialDistortion := !(cc.camera_model_ == "PINHOLE")
                tangentialDistortion := false }
            use_homogeneous_point_parametrization := false }
          ds.ViewIds
      , .removeViews 5
      , .bundleAdjustViews
          { verbose := true
            loss_function_type := "HUBER"
            robust_loss_width := 1345/1000
            num_threads := nthreads
            constant_camera_orientation := true
            constant_camera_position := true
            intrinsics_to_optimize :=
              { focalLength := false
                aspectRatioFlag := false
                principalPoints := true
                radialDistortion := false
                tangentialDistortion := false }
            use_homogeneous_point_parametrization := false }
          (CameraCalibrator.afterStage1Prune adj err nthreads cc ds).ViewIds
      , .bundleAdjustViews
          { verbose := true
            loss_function_type := "HUBER"
            robust_loss_width := 1345/1000
            num_threads := nthreads
            constant_camera_orientation := false
            constant_camera_position := false
            intrinsics_to_optimize :=
              { focalLength := true
                aspectRatioFlag := true
                principalPoints := true
                radialDistortion := cc.camera_model_ == "PINHOLE"
                tangentialDistortion :=
                  cc.camera_model_ == "PINHOLE_RADIAL_TANGENTIAL" }
            use_homogeneous_point_parametrization := false }
          (CameraCalibrator.afterStage2 adj err nthreads cc ds).ViewIds
      , .removeViews 2 ] ++
      (if cc.optimize_board_pts_ then
        [ .bundleAdjustTracks
            { verbose := true
              loss_function_type := "HUBER"
              robust_loss_width := 1345/1000
              num_threads := nthreads
              constant_camera_orientation := false
              constant_camera_position := false
              intrinsics_to_optimize :=
                { focalLength := true
                  aspectRatioFlag := true
                  principalPoints := true
                  radialDistortion := cc.camera_model_ == "PINHOLE"
                  tangentialDistortion :=
                    cc.camera_model_ == "PINHOLE_RADIAL_TANGENTIAL" }
              use_homogeneous_point_parametrization := true }
            (CameraCalibrator.afterStage3Prune adj err nthreads cc
              ds).TrackIds
        , .bundleAdjustViews
            { verbose := true
              loss_function_type := "HUBER"
              robust_loss_width := 1345/1000
              num_threads := nthreads
              constant_camera_orientation := false
              constant_camera_position := false
              intrinsics_to_optimize :=
                { focalLength := true
                  aspectRatioFlag := true
                  principalPoints := true
                  radialDistortion := cc.camera_model_ == "PINHOLE"
                  tangentialDistortion :=
                    cc.camera_model_ == "PINHOLE_RADIAL_TANGENTIAL" }
              use_homogeneous_point_parametrization := true }
            (CameraCalibrator.afterStage3Prune adj err nthreads cc
              ds).ViewIds ]
      else []) := by
  have hg2 :
      ¬ (CameraCalibrator.afterStage2 adj err nthreads cc ds).NumViews <
        cc.min_num_view_ := by
    simpa [CameraCalibrator.afterStage2, numViews_BundleAdjustViews] using h2
  by_cases hb : cc.optimize_board_pts_ <;>
    simp [CameraCalibrator.RunCalibration, h0, hg2, h3, hb,
      CameraCalibrator.stage1Options, CameraCalibrator.stage2Options,
      CameraCalibrator.stage3Options, CameraCalibrator.boardOptions,
      CameraCalibrator.baseBaOptions, viewIds_BundleAdjustTracks,
      trackIds_BundleAdjustTracks]

def cc3fix : CameraCalibrator :=
  { camera_model_ := "DOUBLE_SPHERE"
    optimize_board_pts_ := true
    min_num_view_ := 0
    grid_size_ := 1/100 }

/-- Closed instance of the staged schedule with every gate passing and
board-point optimization enabled. -/
theorem stagedSchedule_witness :
    (¬ testDs1.NumViews < cc3fix.min_num_view_) ∧
      (cc3fix.RunCalibration adjId adjTId (errConst 0) 4 testDs1).2.2 =
        [ .bundleAdjustViews
            { verbose := true
              loss_function_type := "HUBER"
              robust_loss_width := 1345/1000
              num_threads := 4
              constant_camera_orientation := false
              constant_camera_position := false
              intrinsics_to_optimize :=
                { focalLength := true
                  aspectRatioFlag := false
                  principalPoints := false
                  radialDistortion := !(cc3fix.camera_model_ == "PINHOLE")
                  tangentialDistortion := false }
              use_homogeneous_point_parametrization := false }
            testDs1.ViewIds
        , .removeViews 5
        , .bundleAdjustViews
            { verbose := true
              loss_function_type := "HUBER"
              robust_loss_width := 1345/1000
              num_threads := 4
              constant_camera_orientation := true
              constant_camera_position := true
              intrinsics_to_optimize :=
                { focalLength := false
                  aspectRatioFlag := false
                  principalPoints := true
                  radialDistortion := false
                  tangentialDistortion := false }
              use_homogeneous_point_parametrization := false }
            (CameraCalibrator.afterStage1Prune adjId (errConst 0) 4 cc3fix
              testDs1).ViewIds
        , .bundleAdjustViews
            { verbose := true
              loss_function_type := "HUBER"
              robust_loss_width := 1345/1000
              num_threads := 4
              constant_camera_orientation := false
              constant_camera_position := false
              intrinsics_to_optimize :=
                { focalLength := true
                  aspectRatioFlag := true
                  principalPoints := true
                  radialDistortion := cc3fix.camera_model_ == "PINHOLE"
                  tangentialDistortion :=
                    cc3fix.camera_model_ == "PINHOLE_RADIAL_TANGENTIAL" }
              use_homogeneous_point_parametrization := false }
            (CameraCalibrator.afterStage2 adjId (errConst 0) 4 cc3fix
              testDs1).ViewIds
        , .removeViews 2 ] ++
        (if cc3fix.optimize_board_pts_ then
          [ .bundleAdjustTracks
              { verbose := true
                loss_function_type := "HUBER"
                robust_loss_width := 1345/1000
                num_threads := 4
                constant_camera_orientation := false
                constant_camera_position := false
                intrinsics_to_optimize :=
                  { focalLength := true
                    aspectRatioFlag := true
                    principalPoints := true
                    radialDistortion := cc3fix.camera_model_ == "PINHOLE"
                    tangentialDistortion :=
                      cc3fix.camera_model_ == "PINHOLE_RADIAL_TANGENTIAL" }
                use_homogeneous_point_parametrization := true }
              (CameraCalibrator.afterStage3Prune adjId (errConst 0) 4 cc3fix
                testDs1).TrackIds
          , .bundleAdjustViews
              { verbose := true
                loss_function_type := "HUBER"
                robust_loss_width := 1345/1000
                num_threads := 4
                constant_camera_orientation := false
                constant_camera_position := false
                intrinsics_to_optimize :=
                  { focalLength := true
                    aspectRatioFlag := true
                    principalPoints := true
                    radialDistortion := cc3fix.camera_model_ == "PINHOLE"
                    tangentialDistortion :=
                      cc3fix.camera_model_ == "PINHOLE_RADIAL_TANGENTIAL" }
                use_homogeneous_point_parametrization := true }
              (CameraCalibrator.afterStage3Prune adjId (errConst 0) 4 cc3fix
                testDs1).ViewIds ]
        else []) :=
  ⟨by decide,
    stagedSchedule adjId adjTId (errConst 0) 4 cc3fix testDs1 (by decide)
      (by decide) (by decide)⟩

/-! ## C10: the final report reads the first view's camera -/

lemma numViews_BundleAdjustTracks (adjT : AdjustTracksFn)
    (o : BundleAdjustmentOptions) (ids : List TrackId) (ds : Dataset) :
    (BundleAdjustTracks adjT o ids ds).NumViews = ds.NumViews := rfl

lemma firstViewCamera_isSome (ds : Dataset) (h : 1 ≤ ds.NumViews) :
    ∃ c, firstViewCamera ds = some c := by
  rcases hv : ds.views with _ | ⟨p, rest⟩
  · simp [Dataset.NumViews, hv] at h
  · obtain ⟨k, v⟩ := p
    exact ⟨v.camera, by simp [firstViewCamera, Dataset.ViewIds, Dataset.View?,
      hv, List.lookup]⟩

/-- On success, `RunCalibration` ends with at least the configured minimum
number of views: the result is the dataset of the last gate that passed,
and the later board-point refinements never change the view count. -/
lemma runCalibration_success_numViews (adj : AdjustViewsFn)
    (adjT : AdjustTracksFn) (err : ReprojErrorFn) (nthreads : Nat)
    (cc : CameraCalibrator) (ds : Dataset)
    (hs : (cc.RunCalibration adj adjT err nthreads ds).1 = true) :
    cc.min_num_view_ ≤
      (cc.RunCalibration adj adjT err nthreads ds).2.1.NumViews := by
  by_cases g1 : ds.NumViews < cc.min_num_view_
  · simp [CameraCalibrator.RunCalibration, g1] at hs
  · by_cases g2 : (CameraCalibrator.afterStage2 adj err nthreads cc
        ds).NumViews < cc.min_num_view_
    · simp [CameraCalibrator.RunCalibration, g1, g2] at hs
    · by_cases g3 : (CameraCalibrator.afterStage3Prune adj err nthreads cc
          ds).NumViews < cc.min_num_view_
      · simp [CameraCalibrator.RunCalibration, g1, g2, g3] at hs
      · by_cases hb : cc.optimize_board_pts_ <;>
          simp [CameraCalibrator.RunCalibration, g1, g2, g3, hb,
            numViews_BundleAdjustViews, numViews_BundleAdjustTracks] <;>
          omega

/-- C10: when the configured minimum is at least one view, a successful
`RunCalibration` leaves at least `min_num_view_` views, so the
first-view-camera read of the result reporting is well-defined: the
`PrintResult` lookup succeeds, and the post-calibration report of
`CalibrateCameraFromJson` is present whenever it returns success. -/
theorem finalReportWellDefined (adj : AdjustViewsFn) (adjT : AdjustTracksFn)
    (err : ReprojErrorFn) (nthreads : Nat) (cc : CameraCalibrator)
    (hmin : 1 ≤ cc.min_num_view_) :
    (∀ ds, (cc.RunCalibration adj adjT err nthreads ds).1 = true →
      cc.min_num_view_ ≤
          (cc.RunCalibration adj adjT err nthreads ds).2.1.NumViews ∧
        ∃ r, cc.PrintResult (cc.RunCalibration adj adjT err nthreads
          ds).2.1 = some r) ∧
    (∀ (pinit : PoseInitFn) (ds0 : Dataset) (scene : SceneJson),
      (cc.CalibrateCameraFromJson pinit adj adjT err nthreads ds0
          scene).1 = true →
      ∃ c t, (cc.CalibrateCameraFromJson pinit adj adjT err nthreads ds0
        scene).2.2 = some (c, t)) := by
  constructor
  · intro ds hs
    have hnum := runCalibration_success_numViews adj adjT err nthreads cc ds hs
    refine ⟨hnum, ?_⟩
    obtain ⟨c, hc⟩ :=
      firstViewCamera_isSome _ (le_trans hmin hnum)
    exact ⟨printedParams cc.camera_model_ c,
      by simp [CameraCalibrator.PrintResult, hc]⟩
  · intro pinit ds0 scene hs
    simp only [CameraCalibrator.CalibrateCameraFromJson] at hs ⊢
    rcases hR : cc.RunCalibration adj adjT err nthreads
        (CameraCalibrator.ingestAll pinit cc scene.image_width
          scene.image_height
          { ransac_params := constructorRansacParams
            saved_poses := []
            dataset := ds0
            initCalls := [] } scene.views).dataset with ⟨b, dsF, tr⟩
    have hnum := runCalibration_success_numViews adj adjT err nthreads cc
      (CameraCalibrator.ingestAll pinit cc scene.image_width
        scene.image_height
        { ransac_params := constructorRansacParams
          saved_poses := []
          dataset := ds0
          initCalls := [] } scene.views).dataset
    rw [hR] at hnum
    rw [hR] at hs
    cases b
    · simp at hs
    · obtain ⟨c, hc⟩ :=
        firstViewCamera_isSome dsF (le_trans hmin (by simpa using hnum rfl))
      refine ⟨c, (List.map (fun p => err dsF.tracks p.2) dsF.views).sum /
        (dsF.NumViews : ℚ), ?_⟩
      simp [hc]

/-- Closed instance of the well-defined final report: one view, a minimum
of one, zero reprojection error. -/
theorem finalReportWellDefined_witness :
    (1 ≤ cc1fix.min_num_view_) ∧
      (cc1fix.RunCalibration adjId adjTId (errConst 0) 1 testDs1).1 = true ∧
      (cc1fix.min_num_view_ ≤
          (cc1fix.RunCalibration adjId adjTId (errConst 0) 1
            testDs1).2.1.NumViews ∧
        ∃ r, cc1fix.PrintResult (cc1fix.RunCalibration adjId adjTId
          (errConst 0) 1 testDs1).2.1 = some r) :=
  ⟨by decide, by decide,
    (finalReportWellDefined adjId adjTId (errConst 0) 1 cc1fix
      (by decide)).1 testDs1 (by decide)⟩

/-! ## C4: the radial-tangential report branch is dead -/

def prtCamera : Camera :=
  { modelType := "PINHOLE_RADIAL_TANGENTIAL"
    imageWidth := 1920
    imageHeight := 1080
    intrinsics := [800, 1, 0, 960, 540, 3, -2, 7, 11, 13] }

def prtView : View :=
  { timestamp := 0
    estimated := true
    rotation := idRot
    position := ⟨0, 0, 0⟩
    camera := prtCamera
    obs := [] }

def prtDs : Dataset := { views := [(0, prtView)], nextViewId := 1, tracks := [] }

def prtCC : CameraCalibrator :=
  { camera_model_ := "PINHOLE_RADIAL_TANGENTIAL"
    optimize_board_pts_ := false
    min_num_view_ := 1
    grid_size_ := 1 }

/-- C4 evidence: for a calibrator constructed with the
`PINHOLE_RADIAL_TANGENTIAL` kind and a camera whose five distortion
coefficients are all nonzero, `PrintResult` reports only the focal length
and the principal point — the branch that would print the three radial and
two tangential coefficients compares `camera_model_` against the literal
`"PINHOLE_DISTORTION"`, a string no constructor argument of the calibrator
ever equals, so it is dead code and the distortion block is silently
skipped. -/
theorem printResultOmitsRadialTangential :
    prtCC.PrintResult prtDs =
        some [("Focal Length", 800), ("Principal Point X", 960),
          ("Principal Point Y", 540)] ∧
      prtCamera.intr
          PinholeRadialTangentialCameraModel.RADIAL_DISTORTION_1 = 3 ∧
      prtCamera.intr
          PinholeRadialTangentialCameraModel.TANGENTIAL_DISTORTION_2 = 13 ∧
      printedParams "PINHOLE_DISTORTION" prtCamera =
        [ ("Focal Length", 800), ("Principal Point X", 960)
        , ("Principal Point Y", 540), ("Radial distortion 1", 3)
        , ("Radial distortion 2", -2), ("Radial distortion 3", 7)
        , ("Tangential distortion 1", 11)
        , ("Tangential distortion 2", 13) ] :=
  ⟨rfl, rfl, rfl, rfl⟩

/-! ## C5: the calibration-file round trip -/

def pinholeDistCamera : Camera :=
  { modelType := "PINHOLE"
    imageWidth := 1920
    imageHeight := 1080
    intrinsics := [800, 1, 0, 960, 540, 3, 2] }

/-- C5 counterexample: a PINHOLE camera whose radial-distortion slots are
nonzero (exactly the slots stage 3 of `RunCalibration` frees for the
PINHOLE model) does not survive the round trip: the reader's `PINHOLE`
branch restores only the aspect ratio, so both radial-distortion
coefficients come back as the model default 0 and the parameter vector
differs from the serialized one. -/
theorem pinholeRoundTripDropsDistortion :
    (read_camera_calibration
        (write_camera_calibration pinholeDistCamera 30 42 0)
        defaultCamera).1.modelType = "PINHOLE" ∧
      pinholeDistCamera.intr PinholeCameraModel.RADIAL_DISTORTION_1 = 3 ∧
      (read_camera_calibration
        (write_camera_calibration pinholeDistCamera 30 42 0)
        defaultCamera).1.intr PinholeCameraModel.RADIAL_DISTORTION_1 = 0 ∧
      (read_camera_calibration
        (write_camera_calibration pinholeDistCamera 30 42 0)
        defaultCamera).1.intrinsics ≠ pinholeDistCamera.intrinsics :=
  ⟨rfl, rfl, rfl, by decide⟩

set_option maxHeartbeats 3200000 in
/-- C5 amended: serializing a camera's intrinsics and re-loading them
through `read_camera_calibration` reproduces the camera-model kind for all
six kinds, and reproduces the parameter vector exactly for the five
non-pinhole kinds (whose skew slot, never touched by the calibrator, is at
its default 0); for the PINHOLE kind the focal length, aspect ratio and
principal point survive but the two radial-distortion coefficients — which
stage 3 of `RunCalibration` can optimize — are not serialized and are reset
to the model default 0 on re-load. -/
theorem roundTripReproducesIntrinsics (fps e fl ar ppx ppy d1 d2 d3 d4 t1 t2
    x al be : ℚ) (n w h : Nat) :
    read_camera_calibration
        (write_camera_calibration
          ⟨"DIVISION_UNDISTORTION", w, h, [fl, ar, ppx, ppy, d1]⟩ fps n e)
        defaultCamera =
      (⟨"DIVISION_UNDISTORTION", w, h, [fl, ar, ppx, ppy, d1]⟩, fps) ∧
    read_camera_calibration
        (write_camera_calibration
          ⟨"DOUBLE_SPHERE", w, h, [fl, ar, 0, ppx, ppy, x, al]⟩ fps n e)
        defaultCamera =
      (⟨"DOUBLE_SPHERE", w, h, [fl, ar, 0, ppx, ppy, x, al]⟩, fps) ∧
    read_camera_calibration
        (write_camera_calibration
          ⟨"EXTENDED_UNIFIED", w, h, [fl, ar, 0, ppx, ppy, al, be]⟩ fps n e)
        defaultCamera =
      (⟨"EXTENDED_UNIFIED", w, h, [fl, ar, 0, ppx, ppy, al, be]⟩, fps) ∧
    read_camera_calibration
        (write_camera_calibration
          ⟨"FISHEYE", w, h, [fl, ar, 0, ppx, ppy, d1, d2, d3, d4]⟩ fps n e)
        defaultCamera =
      (⟨"FISHEYE", w, h, [fl, ar, 0, ppx, ppy, d1, d2, d3, d4]⟩, fps) ∧
    read_camera_calibration
        (write_camera_calibration
          ⟨"PINHOLE_RADIAL_TANGENTIAL", w, h,
            [fl, ar, 0, ppx, ppy, d1, d2, d3, t1, t2]⟩ fps n e)
        defaultCamera =
      (⟨"PINHOLE_RADIAL_TANGENTIAL", w, h,
        [fl, ar, 0, ppx, ppy, d1, d2, d3, t1, t2]⟩, fps) ∧
    read_camera_calibration
        (write_camera_calibration
          ⟨"PINHOLE", w, h, [fl, ar, 0, ppx, ppy, d1, d2]⟩ fps n e)
        defaultCamera =
      (⟨"PINHOLE", w, h, [fl, ar, 0, ppx, ppy, 0, 0]⟩, fps) :=
  ⟨rfl, rfl, rfl, rfl, rfl, rfl⟩

/-! ## C8: pose-initializer dispatch and RANSAC threshold -/

/-- C8: for every frame processed during ingestion, the recorded initializer
call uses the estimator selected by the camera-model kind together with an
error threshold of 0.003 times the image height; and the dispatch maps the
two pinhole kinds to the pinhole initializer and every other kind
(division-undistortion, double-sphere, extended-unified, fisheye) to the
shared radial-undistortion initializer. -/
theorem poseInitDispatch (pinit : PoseInitFn) (cc : CameraCalibrator)
    (image_width image_height : Nat) :
    (∀ (st : IngestState) (v : SceneView),
      (CameraCalibrator.ingestFrame pinit cc image_width image_height st
          v).initCalls =
        st.initCalls ++
          [(CameraCalibrator.estimatorFor cc.camera_model_,
            3/1000 * (image_height : ℚ))]) ∧
    CameraCalibrator.estimatorFor "PINHOLE" = .pinholeCamera ∧
    CameraCalibrator.estimatorFor "PINHOLE_RADIAL_TANGENTIAL" =
      .pinholeCamera ∧
    CameraCalibrator.estimatorFor "DIVISION_UNDISTORTION" =
      .radialUndistortionCamera ∧
    CameraCalibrator.estimatorFor "DOUBLE_SPHERE" =
      .radialUndistortionCamera ∧
    CameraCalibrator.estimatorFor "EXTENDED_UNIFIED" =
      .radialUndistortionCamera ∧
    CameraCalibrator.estimatorFor "FISHEYE" = .radialUndistortionCamera := by
  refine ⟨?_, rfl, rfl, rfl, rfl, rfl, rfl⟩
  intro st v
  simp only [CameraCalibrator.ingestFrame]
  split <;> rfl

/-! ## Step lemmas for the ingestion loop -/

lemma addObservation_numViews (ds : Dataset) (view_id : ViewId)
    (t : TrackId) (c : ℚ × ℚ) :
    (ds.AddObservation view_id t c).2.NumViews = ds.NumViews := by
  unfold Dataset.AddObservation
  rcases ds.View? view_id with _ | v <;> rcases ds.Track? t with _ | p <;>
    simp [Dataset.NumViews]
  split <;> simp [Dataset.NumViews]

lemma addObservation_idPos (ds : Dataset) (view_id : ViewId) (t : TrackId)
    (c : ℚ × ℚ) :
    ((ds.AddObservation view_id t c).2.views).map
        (fun p => (p.1, p.2.position)) =
      ds.views.map (fun p => (p.1, p.2.position)) := by
  unfold Dataset.AddObservation
  rcases ds.View? view_id with _ | v <;> rcases ds.Track? t with _ | p <;>
    simp [Dataset.NumViews]
  split
  · rfl
  · simp only [List.map_map]
    apply List.map_congr_left
    intro q _
    by_cases h : q.1 = view_id <;> simp [h]

lemma obsFold_numViews (view_id : ViewId) (l : List (TrackId × ℚ × ℚ))
    (ds : Dataset) :
    (l.foldl
        (fun d p => (CameraCalibrator.AddObservation d view_id p.1 p.2).2)
        ds).NumViews = ds.NumViews := by
  induction l generalizing ds with
  | nil => rfl
  | cons q l ih =>
    rw [List.foldl_cons, ih]
    exact addObservation_numViews ds view_id q.1 q.2

lemma obsFold_length (view_id : ViewId) (l : List (TrackId × ℚ × ℚ))
    (ds : Dataset) :
    (l.foldl
        (fun d p => (CameraCalibrator.AddObservation d view_id p.1 p.2).2)
        ds).views.length = ds.views.length :=
  obsFold_numViews view_id l ds

lemma obsFold_idPos (view_id : ViewId) (l : List (TrackId × ℚ × ℚ))
    (ds : Dataset) :
    ((l.foldl
        (fun d p => (CameraCalibrator.AddObservation d view_id p.1 p.2).2)
        ds).views).map (fun p => (p.1, p.2.position)) =
      ds.views.map (fun p => (p.1, p.2.position)) := by
  induction l generalizing ds with
  | nil => rfl
  | cons q l ih =>
    rw [List.foldl_cons, ih]
    exact addObservation_idPos ds view_id q.1 q.2

/-- A frame that fails pose initialization or is deduplicated away leaves
the dataset and the saved positions untouched. -/
lemma ingestFrame_skip (pinit : PoseInitFn) (cc : CameraCalibrator)
    (w h : Nat) (st : IngestState) (v : SceneView)
    (hcond : (st.saved_poses.any fun sp =>
        ((CameraCalibrator.frameOutcome pinit cc w h st v).position.sub
          sp).normLt cc.grid_size_) = true ∨
      (CameraCalibrator.frameOutcome pinit cc w h st v).success = false) :
    (CameraCalibrator.ingestFrame pinit cc w h st v).dataset = st.dataset ∧
      (CameraCalibrator.ingestFrame pinit cc w h st v).saved_poses =
        st.saved_poses := by
  rcases hcond with hc | hc <;> simp [CameraCalibrator.ingestFrame, hc]

/-- An accepted frame appends exactly one view, carrying the estimated
position, and saves exactly that position. -/
lemma ingestFrame_accept (pinit : PoseInitFn) (cc : CameraCalibrator)
    (w h : Nat) (st : IngestState) (v : SceneView)
    (hany : (st.saved_poses.any fun sp =>
        ((CameraCalibrator.frameOutcome pinit cc w h st v).position.sub
          sp).normLt cc.grid_size_) = false)
    (hsucc : (CameraCalibrator.frameOutcome pinit cc w h st v).success =
      true) :
    ((CameraCalibrator.ingestFrame pinit cc w h st v).dataset.views).map
          (fun p => (p.1, p.2.position)) =
        (st.dataset.views.map fun p => (p.1, p.2.position)) ++
          [(st.dataset.nextViewId,
            (CameraCalibrator.frameOutcome pinit cc w h st v).position)] ∧
      (CameraCalibrator.ingestFrame pinit cc w h st v).saved_poses =
        st.saved_poses ++
          [(CameraCalibrator.frameOutcome pinit cc w h st v).position] ∧
      (CameraCalibrator.ingestFrame pinit cc w h st v).dataset.NumViews =
        st.dataset.NumViews + 1 := by
  refine ⟨?_, ?_, ?_⟩
  · simp [CameraCalibrator.ingestFrame, hany, hsucc, obsFold_idPos,
      CameraCalibrator.AddView]
  · simp [CameraCalibrator.ingestFrame, hany, hsucc]
  · simp [CameraCalibrator.ingestFrame, hany, hsucc, obsFold_length,
      CameraCalibrator.AddView, Dataset.NumViews]

/-! ## C6: deduplication of near-identical viewpoints -/

/-- C6: a successfully initialized frame is accepted (the view count grows
by exactly one) precisely when no previously saved position lies strictly
within the grid spacing of its estimated position, and is rejected with the
dataset untouched when some previously saved position does; consequently,
ingesting exactly two successfully-initializing frames whose estimated
positions differ by less than the grid spacing, starting with no saved
positions, grows the view count by exactly one.  Distances are compared in
squared form: for a nonnegative grid spacing `g`, the source's
`‖p − q‖ < g` is `‖p − q‖² < g·g`. -/
theorem dedupGridSpacing :
    (∀ (pinit : PoseInitFn) (cc : CameraCalibrator) (w h : Nat)
      (st : IngestState) (v : SceneView), 0 ≤ cc.grid_size_ →
      (CameraCalibrator.frameOutcome pinit cc w h st v).success = true →
      (((CameraCalibrator.ingestFrame pinit cc w h st v).dataset.NumViews =
          st.dataset.NumViews + 1) ↔
        ∀ sp ∈ st.saved_poses,
          ¬ ((CameraCalibrator.frameOutcome pinit cc w h st
            v).position.sub sp).normSq < cc.grid_size_ * cc.grid_size_) ∧
      ((∃ sp ∈ st.saved_poses,
          ((CameraCalibrator.frameOutcome pinit cc w h st v).position.sub
            sp).normSq < cc.grid_size_ * cc.grid_size_) →
        (CameraCalibrator.ingestFrame pinit cc w h st v).dataset =
          st.dataset)) ∧
    (∀ (pinit : PoseInitFn) (cc : CameraCalibrator) (w h : Nat)
      (st : IngestState) (v₁ v₂ : SceneView), 0 ≤ cc.grid_size_ →
      st.saved_poses = [] →
      (CameraCalibrator.frameOutcome pinit cc w h st v₁).success = true →
      (CameraCalibrator.frameOutcome pinit cc w h
        (CameraCalibrator.ingestFrame pinit cc w h st v₁) v₂).success =
        true →
      ((CameraCalibrator.frameOutcome pinit cc w h
          (CameraCalibrator.ingestFrame pinit cc w h st v₁) v₂).position.sub
        (CameraCalibrator.frameOutcome pinit cc w h st
          v₁).position).normSq < cc.grid_size_ * cc.grid_size_ →
      (CameraCalibrator.ingestAll pinit cc w h st [v₁, v₂]).dataset.NumViews =
        st.dataset.NumViews + 1) := by
  have hnormLt : ∀ (g : ℚ), 0 ≤ g → ∀ (u : Vec3),
      (u.normLt g = true) ↔ u.normSq < g * g := by
    intro g hg u
    simp [Vec3.normLt, hg]
  constructor
  · intro pinit cc w h st v hg hsucc
    constructor
    · constructor
      · intro hcount sp hsp hlt
        have hany : (st.saved_poses.any fun sp =>
            ((CameraCalibrator.frameOutcome pinit cc w h st v).position.sub
              sp).normLt cc.grid_size_) = true :=
          List.any_eq_true.mpr
            ⟨sp, hsp, (hnormLt cc.grid_size_ hg _).mpr hlt⟩
        have hskip :=
          (ingestFrame_skip pinit cc w h st v (Or.inl hany)).1
        rw [hskip] at hcount
        omega
      · intro hall
        have hany : (st.saved_poses.any fun sp =>
            ((CameraCalibrator.frameOutcome pinit cc w h st v).position.sub
              sp).normLt cc.grid_size_) = false := by
          rw [List.any_eq_false]
          intro sp hsp
          rw [Bool.not_eq_true, Bool.eq_false_iff] at *
          intro habs
          exact hall sp hsp ((hnormLt cc.grid_size_ hg _).mp habs)
        exact (ingestFrame_accept pinit cc w h st v hany hsucc).2.2
    · rintro ⟨sp, hsp, hlt⟩
      exact (ingestFrame_skip pinit cc w h st v
        (Or.inl (List.any_eq_true.mpr
          ⟨sp, hsp, (hnormLt cc.grid_size_ hg _).mpr hlt⟩))).1
  · intro pinit cc w h st v₁ v₂ hg hnil hs1 hs2 hdist
    have hany1 : (st.saved_poses.any fun sp =>
        ((CameraCalibrator.frameOutcome pinit cc w h st v₁).position.sub
          sp).normLt cc.grid_size_) = false := by
      rw [hnil]; rfl
    have hacc := ingestFrame_accept pinit cc w h st v₁ hany1 hs1
    have hsaved1 :
        (CameraCalibrator.ingestFrame pinit cc w h st v₁).saved_poses =
          [(CameraCalibrator.frameOutcome pinit cc w h st v₁).position] := by
      rw [hacc.2.1, hnil]; rfl
    have hany2 :
        ((CameraCalibrator.ingestFrame pinit cc w h st
          v₁).saved_poses.any fun sp =>
            ((CameraCalibrator.frameOutcome pinit cc w h
              (CameraCalibrator.ingestFrame pinit cc w h st v₁)
              v₂).position.sub sp).normLt cc.grid_size_) = true := by
      rw [hsaved1]
      simp [List.any_cons]
      exact (hnormLt cc.grid_size_ hg _).mpr hdist
    have hskip2 := (ingestFrame_skip pinit cc w h
      (CameraCalibrator.ingestFrame pinit cc w h st v₁) v₂
      (Or.inl hany2)).1
    show (CameraCalibrator.ingestFrame pinit cc w h
      (CameraCalibrator.ingestFrame pinit cc w h st v₁) v₂).dataset.NumViews =
        st.dataset.NumViews + 1
    rw [hskip2, hacc.2.2]

/-! ## Concrete two-frame deduplication scenario -/

def outA : PoseInitOutcome :=
  { success := true
    rotation := idRot
    position := ⟨0, 0, 0⟩
    focal_length := 800
    radial_distortion := 0 }

def outB : PoseInitOutcome :=
  { success := true
    rotation := idRot
    position := ⟨0, 0, 1⟩
    focal_length := 800
    radial_distortion := 0 }

/-- A pose-initializer instance that estimates position `(0,0,0)` for the
one-corner frame and `(0,0,1)` for the two-corner frame. -/
def pinitW : PoseInitFn := fun _ _ corrs _ _ =>
  if corrs.length == 1 then outA else outB

def vA : SceneView := { timestamp_us := 0, image_points := [(0, 1, 2)] }

def vB : SceneView :=
  { timestamp_us := 1, image_points := [(0, 1, 2), (1, 3, 4)] }

def ccWfix : CameraCalibrator :=
  { camera_model_ := "PINHOLE"
    optimize_board_pts_ := false
    min_num_view_ := 1
    grid_size_ := 2 }

def stWfix : IngestState :=
  { ransac_params := constructorRansacParams
    saved_poses := []
    dataset := emptyDs
    initCalls := [] }

/-- Closed instance of the deduplication property: two successfully
initialized frames whose positions differ by 1 against a grid spacing of 2
yield exactly one new view. -/
theorem dedupGridSpacing_witness :
    (0 : ℚ) ≤ ccWfix.grid_size_ ∧ stWfix.saved_poses = [] ∧
      (CameraCalibrator.frameOutcome pinitW ccWfix 8 6 stWfix vA).success =
        true ∧
      (CameraCalibrator.frameOutcome pinitW ccWfix 8 6
        (CameraCalibrator.ingestFrame pinitW ccWfix 8 6 stWfix vA)
        vB).success = true ∧
      ((CameraCalibrator.frameOutcome pinitW ccWfix 8 6
          (CameraCalibrator.ingestFrame pinitW ccWfix 8 6 stWfix vA)
          vB).position.sub
        (CameraCalibrator.frameOutcome pinitW ccWfix 8 6 stWfix
          vA).position).normSq < ccWfix.grid_size_ * ccWfix.grid_size_ ∧
      (CameraCalibrator.ingestAll pinitW ccWfix 8 6 stWfix
        [vA, vB]).dataset.NumViews = stWfix.dataset.NumViews + 1 := by
  refine ⟨by norm_num [ccWfix], rfl, rfl, rfl, ?_, ?_⟩
  · norm_num [CameraCalibrator.frameOutcome,
      CameraCalibrator.frameCorrespondences, pinitW, outA, outB, vA, vB,
      Vec3.sub, Vec3.normSq, ccWfix]
  · exact dedupGridSpacing.2 pinitW ccWfix 8 6 stWfix vA vB
      (by norm_num [ccWfix]) rfl rfl rfl
      (by norm_num [CameraCalibrator.frameOutcome,
        CameraCalibrator.frameCorrespondences, pinitW, outA, outB, vA, vB,
        Vec3.sub, Vec3.normSq, ccWfix])

/-! ## C9: saved positions are exactly the accepted views' positions -/

/-- Invariant of the ingestion loop: the views appended to the dataset and
the positions appended to `saved_poses` correspond one to one — each
accepted frame contributes one view (with a fresh id) and saves exactly
that view's position, and skipped frames contribute neither. -/
lemma ingest_posInvariant (pinit : PoseInitFn) (cc : CameraCalibrator)
    (w h : Nat) :
    ∀ (vs : List SceneView) (st : IngestState),
      ∃ news : List (ViewId × Vec3),
        ((CameraCalibrator.ingestAll pinit cc w h st vs).dataset.views.map
            fun p => (p.1, p.2.position)) =
          (st.dataset.views.map fun p => (p.1, p.2.position)) ++ news ∧
        (CameraCalibrator.ingestAll pinit cc w h st vs).saved_poses =
          st.saved_poses ++ news.map Prod.snd := by
  intro vs
  induction vs with
  | nil => intro st; exact ⟨[], by simp [CameraCalibrator.ingestAll],
      by simp [CameraCalibrator.ingestAll]⟩
  | cons v rest ih =>
    intro st
    have hstep : CameraCalibrator.ingestAll pinit cc w h st (v :: rest) =
        CameraCalibrator.ingestAll pinit cc w h
          (CameraCalibrator.ingestFrame pinit cc w h st v) rest := rfl
    by_cases hskip : (st.saved_poses.any fun sp =>
        ((CameraCalibrator.frameOutcome pinit cc w h st v).position.sub
          sp).normLt cc.grid_size_) = true ∨
        (CameraCalibrator.frameOutcome pinit cc w h st v).success = false
    · obtain ⟨hds, hsp⟩ := ingestFrame_skip pinit cc w h st v hskip
      obtain ⟨news, h1, h2⟩ :=
        ih (CameraCalibrator.ingestFrame pinit cc w h st v)
      refine ⟨news, ?_, ?_⟩
      · rw [hstep, h1, hds]
      · rw [hstep, h2, hsp]
    · push_neg at hskip
      have hany : (st.saved_poses.any fun sp =>
          ((CameraCalibrator.frameOutcome pinit cc w h st v).position.sub
            sp).normLt cc.grid_size_) = false := by
        simpa using hskip.1
      have hsucc : (CameraCalibrator.frameOutcome pinit cc w h st
          v).success = true := by
        simpa using hskip.2
      obtain ⟨hproj, hsaved, _⟩ :=
        ingestFrame_accept pinit cc w h st v hany hsucc
      obtain ⟨news, h1, h2⟩ :=
        ih (CameraCalibrator.ingestFrame pinit cc w h st v)
      refine ⟨(st.dataset.nextViewId,
        (CameraCalibrator.frameOutcome pinit cc w h st v).position) :: news,
        ?_, ?_⟩
      · rw [hstep, h1, hproj]
        simp
      · rw [hstep, h2, hsaved]
        simp

/-- C9: during ingestion the saved candidate positions are exactly the
positions of the views accepted into the dataset — a frame that fails pose
initialization or is rejected as a duplicate leaves the dataset (views and
observations alike) and the saved positions untouched, and after the whole
loop the saved positions list equals, in order, the positions of the views
appended beyond the initial dataset. -/
theorem savedPosesAreAcceptedPositions :
    (∀ (pinit : PoseInitFn) (cc : CameraCalibrator) (w h : Nat)
      (st : IngestState) (v : SceneView),
      (CameraCalibrator.frameOutcome pinit cc w h st v).success = false ∨
        (st.saved_poses.any fun sp =>
          ((CameraCalibrator.frameOutcome pinit cc w h st v).position.sub
            sp).normLt cc.grid_size_) = true →
      (CameraCalibrator.ingestFrame pinit cc w h st v).dataset =
          st.dataset ∧
        (CameraCalibrator.ingestFrame pinit cc w h st v).saved_poses =
          st.saved_poses) ∧
    (∀ (pinit : PoseInitFn) (cc : CameraCalibrator) (w h : Nat)
      (rp0 : RansacParameters) (ds0 : Dataset) (vs : List SceneView),
      (CameraCalibrator.ingestAll pinit cc w h
        ⟨rp0, [], ds0, []⟩ vs).saved_poses =
        ((CameraCalibrator.ingestAll pinit cc w h
          ⟨rp0, [], ds0, []⟩ vs).dataset.views.drop
            ds0.views.length).map fun p => p.2.position) := by
  constructor
  · intro pinit cc w h st v hcond
    exact ingestFrame_skip pinit cc w h st v hcond.symm
  · intro pinit cc w h rp0 ds0 vs
    obtain ⟨news, h1, h2⟩ :=
      ingest_posInvariant pinit cc w h vs ⟨rp0, [], ds0, []⟩
    have hkey : ((CameraCalibrator.ingestAll pinit cc w h
        ⟨rp0, [], ds0, []⟩ vs).dataset.views.drop ds0.views.length).map
          (fun p => ((p : ViewId × View).1, p.2.position)) = news := by
      have hd := congrArg (List.drop ds0.views.length) h1
      rw [← List.map_drop] at hd
      rw [hd]
      have hlen : ds0.views.length =
          (ds0.views.map fun p => ((p : ViewId × View).1,
            p.2.position)).length := (List.length_map _ _).symm
      rw [hlen, List.drop_left]
    have h2' : (CameraCalibrator.ingestAll pinit cc w h
        ⟨rp0, [], ds0, []⟩ vs).saved_poses = news.map Prod.snd := by
      simpa using h2
    rw [h2', ← hkey, List.map_map]
    rfl

def outFail : PoseInitOutcome :=
  { success := false
    rotation := idRot
    position := ⟨0, 0, 0⟩
    focal_length := 0
    radial_distortion := 0 }

/-- A pose-initializer instance that never finds a consensus pose. -/
def pinitF : PoseInitFn := fun _ _ _ _ _ => outFail

/-- Closed instance of the saved-position invariant: a frame whose pose
initialization fails contributes neither a view nor a saved position, and
after ingesting it the saved positions still equal the positions of the
views added beyond the initial dataset (both lists are empty). -/
theorem savedPosesAreAcceptedPositions_witness :
    ((CameraCalibrator.frameOutcome pinitF ccWfix 8 6 stWfix vA).success =
        false ∨
      (stWfix.saved_poses.any fun sp =>
        ((CameraCalibrator.frameOutcome pinitF ccWfix 8 6 stWfix
          vA).position.sub sp).normLt ccWfix.grid_size_) = true) ∧
      ((CameraCalibrator.ingestFrame pinitF ccWfix 8 6 stWfix vA).dataset =
          stWfix.dataset ∧
        (CameraCalibrator.ingestFrame pinitF ccWfix 8 6 stWfix
          vA).saved_poses = stWfix.saved_poses) ∧
      (CameraCalibrator.ingestAll pinitF ccWfix 8 6
        ⟨constructorRansacParams, [], emptyDs, []⟩ [vA]).saved_poses =
        ((CameraCalibrator.ingestAll pinitF ccWfix 8 6
          ⟨constructorRansacParams, [], emptyDs, []⟩ [vA]).dataset.views.drop
            emptyDs.views.length).map fun p => p.2.position :=
  ⟨Or.inl rfl,
    savedPosesAreAcceptedPositions.1 pinitF ccWfix 8 6 stWfix vA
      (Or.inl rfl),
    savedPosesAreAcceptedPositions.2 pinitF ccWfix 8 6
      constructorRansacParams emptyDs [vA]⟩

end OpenICC
